import Mathlib

/-!
Formal model of the rust-eansearch client library (`src/lib.rs`).

The library issues HTTP GET requests against the EAN-Search API and
classifies the JSON response bodies.  We embed the response bodies as an
abstract JSON value type (`Json`, with an extra constructor `invalid`
standing for a body that is not syntactically valid JSON, on which every
serde parse fails), embed the serde decoders of the record types declared
in `lib.rs`, and embed each operation as a pure function of the client
state and of the responses delivered by the network.  Network delivery is
modelled by an oracle (`Except String HttpResponse`, or a stream of those
for the retrying list dispatcher): `Except.error` is a transport failure
of `send()`.  Aborts of the Rust process (`unwrap` on `None`/`Err`,
index out of bounds, base64 `unwrap`) are modelled by the explicit
outcome `Ret.panic`.
-/

/-- A parsed JSON value. `invalid` stands for a response body that is not
syntactically valid JSON: every `serde_json::from_str` on it fails. -/
inductive Json where
  | null
  | bool (b : Bool)
  | num (n : Int)
  | str (s : String)
  | arr (elems : List Json)
  | obj (fields : List (String × Json))
  | invalid

/-- Value of a decimal digit character, as accepted by Rust's integer
`FromStr` implementations. -/
def digitVal (c : Char) : Option Nat :=
  if '0' ≤ c ∧ c ≤ '9' then some (c.toNat - '0'.toNat) else none

/-- Parse a non-empty all-digit character list into a natural number. -/
def parseNatDigits : List Char → Option Nat
  | [] => none
  | cs => cs.foldlM (fun acc c => (digitVal c).map (fun d => acc * 10 + d)) 0

/-- Rust `u64::from_str`: optional leading `+`, then decimal digits,
rejecting overflow past `u64::MAX`. -/
def parseU64 (s : String) : Option Nat :=
  let cs := match s.toList with
    | '+' :: rest => rest
    | cs => cs
  (parseNatDigits cs).bind (fun n => if n < 2 ^ 64 then some n else none)

/-- Rust `i32::from_str`: optional sign, decimal digits, `i32` range check. -/
def parseI32 (s : String) : Option Int :=
  match s.toList with
  | '-' :: rest => (parseNatDigits rest).bind
      (fun n => if n ≤ 2 ^ 31 then some (-(n : Int)) else none)
  | '+' :: rest => (parseNatDigits rest).bind
      (fun n => if n < 2 ^ 31 then some ((n : Int)) else none)
  | cs => (parseNatDigits cs).bind
      (fun n => if n < 2 ^ 31 then some ((n : Int)) else none)

/-- Rust `i64::from_str`: optional sign, decimal digits, `i64` range check.
Used for the `x-credits-remaining` response header. -/
def parseI64 (s : String) : Option Int :=
  match s.toList with
  | '-' :: rest => (parseNatDigits rest).bind
      (fun n => if n ≤ 2 ^ 63 then some (-(n : Int)) else none)
  | '+' :: rest => (parseNatDigits rest).bind
      (fun n => if n < 2 ^ 63 then some ((n : Int)) else none)
  | cs => (parseNatDigits cs).bind
      (fun n => if n < 2 ^ 63 then some ((n : Int)) else none)

/-- A product returned from the EAN database (`struct Product`,
lib.rs lines 22-30).  `ean` is a `u64`, `category_id` an `i32`; both are
transmitted as JSON strings (`DisplayFromStr`). -/
structure Product where
  ean : Nat
  name : String
  category_id : Int
  category_name : String
  issuing_country : String
deriving DecidableEq

/-- A product, extended version (`struct ExtProduct`, lib.rs lines 42-52). -/
structure ExtProduct where
  ean : Nat
  name : String
  category_id : Int
  category_name : String
  google_category_id : Int
  issuing_country : String
deriving DecidableEq

/-- Response shape of the issuing-country operation (`struct
ProductCountry`, lib.rs lines 63-67). -/
structure ProductCountry where
  ean : Nat
  issuing_country : String
deriving DecidableEq

/-- Response shape of the verify-checksum operation (`struct
VerifyChecksum`, lib.rs lines 72-76). -/
structure VerifyChecksum where
  ean : Nat
  valid : String
deriving DecidableEq

/-- Response shape of the barcode-image operation (`struct BarcodeImage`,
lib.rs lines 81-85). -/
structure BarcodeImage where
  ean : Nat
  barcode : String
deriving DecidableEq

/-- The error shape returned by the API (`struct APIError`, lib.rs
lines 99-101): a single `error` text field. -/
structure APIError where
  error : String
deriving DecidableEq

/-- Field access in a JSON object, as serde sees it (first binding wins). -/
def getField (fields : List (String × Json)) (k : String) : Option Json :=
  fields.lookup k

/-- Serde deserialization of a JSON value into a Rust `String`. -/
def asString : Json → Option String
  | .str s => some s
  | _ => none

/-- Serde decoder for `Product` (camelCase field names on the wire,
numeric ids transmitted as strings and parsed via `FromStr`). -/
def decodeProduct (j : Json) : Option Product :=
  match j with
  | .obj fs => do
      let ean ← (getField fs "ean").bind asString >>= parseU64
      let name ← (getField fs "name").bind asString
      let category_id ← (getField fs "categoryId").bind asString >>= parseI32
      let category_name ← (getField fs "categoryName").bind asString
      let issuing_country ← (getField fs "issuingCountry").bind asString
      pure { ean, name, category_id, category_name, issuing_country }
  | _ => none

/-- Serde decoder for `ExtProduct`. -/
def decodeExtProduct (j : Json) : Option ExtProduct :=
  match j with
  | .obj fs => do
      let ean ← (getField fs "ean").bind asString >>= parseU64
      let name ← (getField fs "name").bind asString
      let category_id ← (getField fs "categoryId").bind asString >>= parseI32
      let category_name ← (getField fs "categoryName").bind asString
      let google_category_id ←
        (getField fs "googleCategoryId").bind asString >>= parseI32
      let issuing_country ← (getField fs "issuingCountry").bind asString
      pure { ean, name, category_id, category_name, google_category_id,
             issuing_country }
  | _ => none

/-- Serde decoder for `ProductCountry`. -/
def decodeProductCountry (j : Json) : Option ProductCountry :=
  match j with
  | .obj fs => do
      let ean ← (getField fs "ean").bind asString >>= parseU64
      let issuing_country ← (getField fs "issuingCountry").bind asString
      pure { ean, issuing_country }
  | _ => none

/-- Serde decoder for `VerifyChecksum`. -/
def decodeVerifyChecksum (j : Json) : Option VerifyChecksum :=
  match j with
  | .obj fs => do
      let ean ← (getField fs "ean").bind asString >>= parseU64
      let valid ← (getField fs "valid").bind asString
      pure { ean, valid }
  | _ => none

/-- Serde decoder for `BarcodeImage`. -/
def decodeBarcodeImage (j : Json) : Option BarcodeImage :=
  match j with
  | .obj fs => do
      let ean ← (getField fs "ean").bind asString >>= parseU64
      let barcode ← (getField fs "barcode").bind asString
      pure { ean, barcode }
  | _ => none

/-- Serde decoder for `APIError`. -/
def decodeAPIError (j : Json) : Option APIError :=
  match j with
  | .obj fs => do
      let error ← (getField fs "error").bind asString
      pure { error }
  | _ => none

/-- Serde deserialization of `Vec<T>`: the value must be a JSON array and
every element must decode. -/
def decodeVec (dec : Json → Option α) : Json → Option (List α)
  | .arr xs => xs.mapM dec
  | _ => none

/-- Serde deserialization of `Option<Vec<ExtProduct>>`, the success shape
of the barcode/ISBN lookup operations: JSON `null` decodes to `none`,
otherwise the value must decode as `Vec<ExtProduct>`. -/
def decodeOptVecExtProduct : Json → Option (Option (List ExtProduct))
  | .null => some none
  | j => (decodeVec decodeExtProduct j).map some

/-- Outcome of a Rust call that may return `Ok`, return `Err` (with the
message carried by the boxed error), or abort the process. `panic` models
any `unwrap()` failure or out-of-bounds index. -/
inductive Ret (α : Type) where
  | ok (a : α)
  | err (msg : String)
  | panic
deriving DecidableEq

/-- Stand-in for the `Display` output of a `serde_json::Error` that the
code propagates with the question-mark operator; its concrete text is
produced by the external serde library. -/
def jsonParseErrorMsg : String := "serde_json error"

/-- Which response shape a `serde_json::from_str` call targets: the
operation's success shape, or `Vec<APIError>`. Used to record the order
of the parse attempts an operation performs on a body. -/
inductive ParseShape where
  | success
  | errorList
deriving DecidableEq

/-- The blocking HTTP client held by the access object: we model only its
configuration, the user-agent string (lib.rs line 115). -/
structure HttpClient where
  userAgent : String
deriving DecidableEq

/-- The access object (`struct EANSearch`, lib.rs lines 106-110): HTTP
client, invariant base url, and the cached credit counter `remaining`. -/
structure EANSearch where
  client : HttpClient
  base_url : String
  remaining : Int
deriving DecidableEq

/-- Constructor `EANSearch::new` (lib.rs lines 114-119). It is a pure
function of the token: its type takes no network oracle, so no network
activity can occur at construction time. -/
def EANSearch.new (token : String) : EANSearch :=
  { client := { userAgent := "rust-eansearch/1.0" },
    base_url := "https://api.ean-search.org/api?format=json&token=" ++ token,
    remaining := -1 }

/-- An HTTP response as the client observes it: status code, the optional
`x-credits-remaining` header (raw header text), and the body.  The body is
`Except`: `error` models a failure of `resp.text()`. -/
structure HttpResponse where
  status : Nat
  creditsHeader : Option String
  body : Except String Json

/-- The credits-header block duplicated at lib.rs lines 172-176 (in
`api_call`) and 182-186 (in `api_call_list`): a present header is parsed
as `i64` (panicking on failure, hence `none`), an absent header resets
`remaining` to -1. -/
def updateRemaining (st : EANSearch) (header : Option String) :
    Option EANSearch :=
  match header with
  | some s => (parseI64 s).map (fun n => { st with remaining := n })
  | none => some { st with remaining := -1 }

/-- Result of `api_call`: the client state after the call together with
the returned `Result<String, _>` (body text, here already JSON-parsed). -/
structure CallOut where
  st : EANSearch
  result : Ret Json

/-- Method `api_call` (lib.rs lines 170-178). The network delivery is the
oracle `tr`; `Except.error` is a transport failure, on which
`send().unwrap()` panics. A present but unparseable credits header also
panics. A body-read failure is returned as `Err` by the question-mark
operator. -/
def api_call (st : EANSearch) (tr : Except String HttpResponse) : CallOut :=
  match tr with
  | .error _ => { st := st, result := .panic }
  | .ok resp =>
    match updateRemaining st resp.creditsHeader with
    | none => { st := st, result := .panic }
    | some st1 =>
      match resp.body with
      | .error e => { st := st1, result := .err e }
      | .ok b => { st := st1, result := .ok b }

/-- Response-body classification of `barcode_lookup` (lib.rs lines
127-143), instrumented with the list of parse attempts in the order the
code performs them: the success shape `Option<Vec<ExtProduct>>` is tried
first, and `Vec<APIError>` is tried only in the branch where the success
parse failed.  In the success branch `p.unwrap()` panics on a `null`
container and indexing `[0]` panics on an empty list. -/
def barcode_lookup_classify_traced (body : Json) :
    Ret (Option ExtProduct) × List ParseShape :=
  match decodeOptVecExtProduct body with
  | some p =>
    (match p with
     | none => .panic
     | some [] => .panic
     | some (x :: _) => .ok (some x), [.success])
  | none =>
    (match decodeVec decodeAPIError body with
     | some [] => .panic
     | some (e :: _) =>
        if e.error = "Barcode not found" then .ok none else .err e.error
     | none => .err "Undefined API error", [.success, .errorList])

/-- The classification outcome of `barcode_lookup` on a body. -/
def barcode_lookup_classify (body : Json) : Ret (Option ExtProduct) :=
  (barcode_lookup_classify_traced body).1

/-- Response-body classification of `isbn_lookup` (lib.rs lines 151-167);
the code is a verbatim duplicate of the `barcode_lookup` classification. -/
def isbn_lookup_classify_traced (body : Json) :
    Ret (Option ExtProduct) × List ParseShape :=
  match decodeOptVecExtProduct body with
  | some p =>
    (match p with
     | none => .panic
     | some [] => .panic
     | some (x :: _) => .ok (some x), [.success])
  | none =>
    (match decodeVec decodeAPIError body with
     | some [] => .panic
     | some (e :: _) =>
        if e.error = "Barcode not found" then .ok none else .err e.error
     | none => .err "Undefined API error", [.success, .errorList])

/-- The classification outcome of `isbn_lookup` on a body. -/
def isbn_lookup_classify (body : Json) : Ret (Option ExtProduct) :=
  (isbn_lookup_classify_traced body).1

/-- Response-body classification of `issuing_country` (lib.rs lines
247-257): success shape `Vec<ProductCountry>`, indexed at 0 (panic on an
empty list), then the error-shape fallback. -/
def issuing_country_classify_traced (body : Json) :
    Ret String × List ParseShape :=
  match decodeVec decodeProductCountry body with
  | some [] => (.panic, [.success])
  | some (p :: _) => (.ok p.issuing_country, [.success])
  | none =>
    (match decodeVec decodeAPIError body with
     | some [] => .panic
     | some (e :: _) => .err e.error
     | none => .err "Undefined API error", [.success, .errorList])

/-- The classification outcome of `issuing_country` on a body. -/
def issuing_country_classify (body : Json) : Ret String :=
  (issuing_country_classify_traced body).1

/-- Response-body classification of `verify_checksum` (lib.rs lines
265-275): success shape `Vec<VerifyChecksum>`, the result is the boolean
comparison of the `valid` field with the string "1". -/
def verify_checksum_classify_traced (body : Json) :
    Ret Bool × List ParseShape :=
  match decodeVec decodeVerifyChecksum body with
  | some [] => (.panic, [.success])
  | some (p :: _) => (.ok (p.valid == "1"), [.success])
  | none =>
    (match decodeVec decodeAPIError body with
     | some [] => .panic
     | some (e :: _) => .err e.error
     | none => .err "Undefined API error", [.success, .errorList])

/-- The classification outcome of `verify_checksum` on a body. -/
def verify_checksum_classify (body : Json) : Ret Bool :=
  (verify_checksum_classify_traced body).1

/-- Value of a character in the standard base64 alphabet. -/
def b64CharVal (c : Char) : Option Nat :=
  if 'A' ≤ c ∧ c ≤ 'Z' then some (c.toNat - 'A'.toNat)
  else if 'a' ≤ c ∧ c ≤ 'z' then some (c.toNat - 'a'.toNat + 26)
  else if '0' ≤ c ∧ c ≤ '9' then some (c.toNat - '0'.toNat + 52)
  else if c = '+' then some 62
  else if c = '/' then some 63
  else none

/-- Turn a list of 6-bit values into the decoded bytes, processing groups
of four; a trailing group of one is invalid, trailing groups of two or
three must have their unused low bits zero (the base64 crate's default
configuration rejects nonzero trailing bits). -/
def b64Assemble : List Nat → Option (List Nat)
  | [] => some []
  | [_] => none
  | [a, b] => if b % 16 = 0 then some [a * 4 + b / 16] else none
  | [a, b, c] =>
      if c % 4 = 0 then some [a * 4 + b / 16, b % 16 * 16 + c / 4] else none
  | a :: b :: c :: d :: rest =>
      (b64Assemble rest).map
        (fun tail =>
          (a * 4 + b / 16) :: (b % 16 * 16 + c / 4) :: (c % 4 * 64 + d) :: tail)

/-- The base64 decode used at lib.rs line 286:
`general_purpose::STANDARD_NO_PAD.decode` — standard alphabet, a padding
character is rejected (it is not in the alphabet). -/
def base64_decode_nopad (s : String) : Option (List Nat) :=
  (s.toList.mapM b64CharVal).bind b64Assemble

/-- Response-body classification of `barcode_image` (lib.rs lines
284-294): success shape `Vec<BarcodeImage>`, the payload is base64
decoded with `unwrap()` (panic on a decode failure). -/
def barcode_image_classify_traced (body : Json) :
    Ret (List Nat) × List ParseShape :=
  match decodeVec decodeBarcodeImage body with
  | some [] => (.panic, [.success])
  | some (p :: _) =>
    (match base64_decode_nopad p.barcode with
     | some bytes => .ok bytes
     | none => .panic, [.success])
  | none =>
    (match decodeVec decodeAPIError body with
     | some [] => .panic
     | some (e :: _) => .err e.error
     | none => .err "Undefined API error", [.success, .errorList])

/-- The classification outcome of `barcode_image` on a body. -/
def barcode_image_classify (body : Json) : Ret (List Nat) :=
  (barcode_image_classify_traced body).1

/-- Maximum attempt count for the 429 retry loop (`const MAX_API_TRIES`,
lib.rs line 103). -/
def MAX_API_TRIES : Int := 3

/-- Index into a `serde_json::Value` with a string key, as at lib.rs line
197 (`&json["productlist"]`): on an object it yields the value of the key
or `null` when absent, on every other value it yields `null`. -/
def jsonIndex (j : Json) (key : String) : Json :=
  match j with
  | .obj fs => (getField fs key).getD .null
  | _ => .null

/-- Response-body classification of `api_call_list` (lib.rs lines
192-200), instrumented with the parse attempts in the order the code
performs them: the body is parsed as `Vec<APIError>` FIRST (line 192) and
the first error text returned as `Err` when that succeeds (`unwrap()[0]`
panics when the error array is empty); only when the error parse fails is
the body parsed as a `Value` (a question-mark failure on an invalid body),
the `productlist` field extracted, re-serialized and re-parsed as
`Vec<Product>` (a question-mark failure when that parse fails). -/
def api_call_list_classify_traced (body : Json) :
    Ret (List Product) × List ParseShape :=
  match decodeVec decodeAPIError body with
  | some [] => (.panic, [.errorList])
  | some (e :: _) => (.err e.error, [.errorList])
  | none =>
    match body with
    | .invalid => (.err jsonParseErrorMsg, [.errorList])
    | j =>
      (match decodeVec decodeProduct (jsonIndex j "productlist") with
       | some l => .ok l
       | none => .err jsonParseErrorMsg, [.errorList, .success])

/-- The classification outcome of `api_call_list` on a body. -/
def api_call_list_classify (body : Json) : Ret (List Product) :=
  (api_call_list_classify_traced body).1

/-- Result of `api_call_list`: final client state, the returned
`Result<Vec<Product>, _>`, the number of GET requests issued, and the
`Duration::new(secs, nanos)` argument pairs of the sleeps performed
before each retry. -/
structure ListOut where
  st : EANSearch
  result : Ret (List Product)
  requests : Nat
  sleeps : List (Nat × Nat)

/-- Method `api_call_list` (lib.rs lines 180-201).  The network is the
oracle `net`, giving the delivery outcome of the request with each index;
`idx` is the index of the next request.  Each iteration sends one GET
(`send().unwrap()` panics on a transport failure), updates `remaining`
from the credits header, and on status 429 with `tries <= MAX_API_TRIES`
sleeps `Duration::new(0, 1)` and recurses with `tries + 1`; otherwise the
body is read (question-mark on a read failure) and classified. -/
def api_call_list (st : EANSearch) (net : Nat → Except String HttpResponse)
    (idx : Nat) (tries : Int) : ListOut :=
  match net idx with
  | .error _ => { st := st, result := .panic, requests := 1, sleeps := [] }
  | .ok resp =>
    match updateRemaining st resp.creditsHeader with
    | none => { st := st, result := .panic, requests := 1, sleeps := [] }
    | some st1 =>
      if resp.status = 429 ∧ tries ≤ MAX_API_TRIES then
        let r := api_call_list st1 net (idx + 1) (tries + 1)
        { st := r.st, result := r.result, requests := r.requests + 1,
          sleeps := (0, 1) :: r.sleeps }
      else
        match resp.body with
        | .error e =>
            { st := st1, result := .err e, requests := 1, sleeps := [] }
        | .ok b =>
            { st := st1, result := api_call_list_classify b, requests := 1,
              sleeps := [] }
termination_by (MAX_API_TRIES + 1 - tries).toNat
decreasing_by
  simp only [MAX_API_TRIES] at *
  omega

/-- Method `barcode_lookup` (lib.rs lines 122-144): URL assembly with the
language default 1, one `api_call` whose `Result` is `unwrap`ped (panic on
`Err`), then the body classification.  Returns the assembled URL together
with the call outcome. -/
def barcode_lookup (st : EANSearch) (ean : Nat) (language : Option Int)
    (tr : Except String HttpResponse) :
    String × Ret (EANSearch × Option ExtProduct) :=
  let url := st.base_url ++ "&op=barcode-lookup&ean=" ++ toString ean
      ++ "&language=" ++ toString (language.getD 1)
  (url,
    match api_call st tr with
    | { st := st1, result := .ok body } =>
      match barcode_lookup_classify body with
      | .ok p => .ok (st1, p)
      | .err m => .err m
      | .panic => .panic
    | { st := _, result := .err _ } => .panic
    | { st := _, result := .panic } => .panic)

/-- Method `isbn_lookup` (lib.rs lines 147-168): as `barcode_lookup` but
with the `isbn` parameter and no language parameter. -/
def isbn_lookup (st : EANSearch) (isbn : Nat)
    (tr : Except String HttpResponse) :
    String × Ret (EANSearch × Option ExtProduct) :=
  let url := st.base_url ++ "&op=barcode-lookup&isbn=" ++ toString isbn
  (url,
    match api_call st tr with
    | { st := st1, result := .ok body } =>
      match isbn_lookup_classify body with
      | .ok p => .ok (st1, p)
      | .err m => .err m
      | .panic => .panic
    | { st := _, result := .err _ } => .panic
    | { st := _, result := .panic } => .panic)

/-- Method `barcode_prefix_search` (lib.rs lines 204-210): URL assembly
with page default 0 and language default 1, then the retrying dispatcher
starting at `tries = 1`. -/
def barcode_prefix_search (st : EANSearch) (pfx : Nat)
    (language : Option Int) (page : Option Int)
    (net : Nat → Except String HttpResponse) : String × ListOut :=
  let url := st.base_url ++ "&op=barcode-prefix-search&prefix="
      ++ toString pfx ++ "&page=" ++ toString (page.getD 0)
      ++ "&language=" ++ toString (language.getD 1)
  (url, api_call_list st net 0 1)

/-- Method `product_search` (lib.rs lines 213-219): URL assembly with
language default 99 and page default 0, then the retrying dispatcher. -/
def product_search (st : EANSearch) (name : String) (language : Option Int)
    (page : Option Int) (net : Nat → Except String HttpResponse) :
    String × ListOut :=
  let url := st.base_url ++ "&op=product-search&name=" ++ name
      ++ "&language=" ++ toString (language.getD 99)
      ++ "&page=" ++ toString (page.getD 0)
  (url, api_call_list st net 0 1)

/-- Method `similar_product_search` (lib.rs lines 222-228): URL assembly
with language default 99 and page default 0, then the retrying
dispatcher. -/
def similar_product_search (st : EANSearch) (name : String)
    (language : Option Int) (page : Option Int)
    (net : Nat → Except String HttpResponse) : String × ListOut :=
  let url := st.base_url ++ "&op=similar-product-search&name=" ++ name
      ++ "&language=" ++ toString (language.getD 99)
      ++ "&page=" ++ toString (page.getD 0)
  (url, api_call_list st net 0 1)

/-- Method `category_search` (lib.rs lines 231-240): URL assembly with an
optional name fragment, language default 99 and page default 0, then the
retrying dispatcher. -/
def category_search (st : EANSearch) (category : Int)
    (name : Option String) (language : Option Int) (page : Option Int)
    (net : Nat → Except String HttpResponse) : String × ListOut :=
  let url := st.base_url ++ "&op=category-search&category="
      ++ toString category
      ++ (match name with
          | some n => "&name=" ++ n
          | none => "")
      ++ "&language=" ++ toString (language.getD 99)
      ++ "&page=" ++ toString (page.getD 0)
  (url, api_call_list st net 0 1)

/-- Method `issuing_country` (lib.rs lines 243-258). -/
def issuing_country (st : EANSearch) (ean : Nat)
    (tr : Except String HttpResponse) : String × Ret (EANSearch × String) :=
  let url := st.base_url ++ "&op=issuing-country&ean=" ++ toString ean
  (url,
    match api_call st tr with
    | { st := st1, result := .ok body } =>
      match issuing_country_classify body with
      | .ok c => .ok (st1, c)
      | .err m => .err m
      | .panic => .panic
    | { st := _, result := .err _ } => .panic
    | { st := _, result := .panic } => .panic)

/-- Method `verify_checksum` (lib.rs lines 261-276). -/
def verify_checksum (st : EANSearch) (ean : Nat)
    (tr : Except String HttpResponse) : String × Ret (EANSearch × Bool) :=
  let url := st.base_url ++ "&op=verify-checksum&ean=" ++ toString ean
  (url,
    match api_call st tr with
    | { st := st1, result := .ok body } =>
      match verify_checksum_classify body with
      | .ok b => .ok (st1, b)
      | .err m => .err m
      | .panic => .panic
    | { st := _, result := .err _ } => .panic
    | { st := _, result := .panic } => .panic)

/-- Method `barcode_image` (lib.rs lines 279-295): URL assembly with
width default 102 and height default 50. -/
def barcode_image (st : EANSearch) (ean : Nat) (width : Option Int)
    (height : Option Int) (tr : Except String HttpResponse) :
    String × Ret (EANSearch × List Nat) :=
  let url := st.base_url ++ "&op=barcode-image&ean=" ++ toString ean
      ++ "&width=" ++ toString (width.getD 102)
      ++ "&height=" ++ toString (height.getD 50)
  (url,
    match api_call st tr with
    | { st := st1, result := .ok body } =>
      match barcode_image_classify body with
      | .ok bytes => .ok (st1, bytes)
      | .err m => .err m
      | .panic => .panic
    | { st := _, result := .err _ } => .panic
    | { st := _, result := .panic } => .panic)

/-- Method `credits_remaining` (lib.rs lines 298-304): when the cached
counter is negative, one dummy account-status query is issued through
`api_call` (its `Result` is `unwrap`ped); otherwise the cached value is
returned directly.  The second component counts the GET requests
issued (0 or 1). -/
def credits_remaining (st : EANSearch)
    (tr : Except String HttpResponse) : Ret (EANSearch × Int) × Nat :=
  if st.remaining < 0 then
    (match api_call st tr with
     | { st := st1, result := .ok _ } => .ok (st1, st1.remaining)
     | { st := _, result := .err _ } => .panic
     | { st := _, result := .panic } => .panic, 1)
  else (.ok (st, st.remaining), 0)

/-- C8: construction from a token performs no network activity (the type
of `EANSearch.new` takes no network oracle, so no request can be issued);
it stores the invariant base URL prefix consisting of scheme, host, path,
the fixed format=json flag and token=<value>, it configures the HTTP
client with the fixed identifying user-agent string, and it initializes
the cached credit counter to the unknown sentinel -1. -/
theorem C8_construction (token : String) :
    (EANSearch.new token).base_url =
      "https://" ++ "api.ean-search.org" ++ "/api" ++ "?" ++ "format=json"
        ++ "&token=" ++ token ∧
    (EANSearch.new token).client.userAgent = "rust-eansearch/1.0" ∧
    (EANSearch.new token).remaining = -1 :=
  ⟨rfl, rfl, rfl⟩

/-- C7: when the optional parameters are omitted, the assembled query URL
uses language 1 for barcode-prefix-search, language 99 for
product-search, similar-product-search and category-search, page 0 for
all four list-producing operations, and width 102 and height 50 for
barcode-image; equivalently, passing `none` assembles the same URL as
passing those default values explicitly. -/
theorem C7_parameter_defaults (st : EANSearch) (pfx : Nat) (name : String)
    (category : Int) (ean : Nat) (optName : Option String)
    (net : Nat → Except String HttpResponse)
    (tr : Except String HttpResponse) :
    (barcode_prefix_search st pfx none none net).1 =
      st.base_url ++ "&op=barcode-prefix-search&prefix=" ++ toString pfx
        ++ "&page=" ++ "0" ++ "&language=" ++ "1" ∧
    (product_search st name none none net).1 =
      st.base_url ++ "&op=product-search&name=" ++ name
        ++ "&language=" ++ "99" ++ "&page=" ++ "0" ∧
    (similar_product_search st name none none net).1 =
      st.base_url ++ "&op=similar-product-search&name=" ++ name
        ++ "&language=" ++ "99" ++ "&page=" ++ "0" ∧
    (category_search st category optName none none net).1 =
      (category_search st category optName (some 99) (some 0) net).1 ∧
    (barcode_image st ean none none tr).1 =
      st.base_url ++ "&op=barcode-image&ean=" ++ toString ean
        ++ "&width=" ++ "102" ++ "&height=" ++ "50" :=
  ⟨rfl, rfl, rfl, rfl, rfl⟩

/-- C10: when the success-shape parse of the lookup operations succeeds
but yields the absent container (JSON null) or a container holding an
empty list, the classification of barcode_lookup and isbn_lookup panics
(`unwrap` of `None`, respectively index 0 out of bounds) instead of
producing any Ok or Err value. -/
theorem C10_lookup_panics_on_empty_container (body : Json)
    (h : decodeOptVecExtProduct body = some none ∨
         decodeOptVecExtProduct body = some (some [])) :
    barcode_lookup_classify body = .panic ∧
    isbn_lookup_classify body = .panic := by
  unfold barcode_lookup_classify barcode_lookup_classify_traced
    isbn_lookup_classify isbn_lookup_classify_traced
  rcases h with h | h <;> simp [h]

/-- Witness for C10: the body JSON `null` decodes to the absent container
and the body `[]` to the empty container; on both, both lookup
classifications panic. -/
theorem C10_witness :
    barcode_lookup_classify Json.null = .panic ∧
    isbn_lookup_classify Json.null = .panic ∧
    barcode_lookup_classify (Json.arr []) = .panic ∧
    isbn_lookup_classify (Json.arr []) = .panic :=
  ⟨(C10_lookup_panics_on_empty_container Json.null (Or.inl rfl)).1,
   (C10_lookup_panics_on_empty_container Json.null (Or.inl rfl)).2,
   (C10_lookup_panics_on_empty_container (Json.arr []) (Or.inr rfl)).1,
   (C10_lookup_panics_on_empty_container (Json.arr []) (Or.inr rfl)).2⟩

/-- C5: credits_remaining issues a network request (the one dummy
account-status query) exactly when the cached credit counter is at the
unknown sentinel (negative); when the cache holds a non-negative value it
returns that cached value immediately, with the state unchanged and zero
requests issued. -/
theorem C5_credits_remaining_lazy (st : EANSearch)
    (tr : Except String HttpResponse) :
    ((credits_remaining st tr).2 = if st.remaining < 0 then 1 else 0) ∧
    (0 ≤ st.remaining →
      credits_remaining st tr = (.ok (st, st.remaining), 0)) := by
  constructor
  · unfold credits_remaining
    split <;> simp
  · intro h
    unfold credits_remaining
    rw [if_neg (by omega)]

/-- Witness for C5: with a cached balance of 5 the getter returns 5 with
zero requests, even when the network is down. -/
theorem C5_witness :
    credits_remaining
        { client := { userAgent := "rust-eansearch/1.0" },
          base_url := "u", remaining := 5 }
        (Except.error "network down") =
      (.ok ({ client := { userAgent := "rust-eansearch/1.0" },
              base_url := "u", remaining := 5 }, 5), 0) :=
  (C5_credits_remaining_lazy _ _).2 (by decide)

/-- C6: for every response body that parses as the one-element
verify-checksum success shape, verify_checksum returns Ok of the boolean
comparison of the valid field with the string "1": Ok(true) exactly when
the field equals "1" and Ok(false) for any other string value. -/
theorem C6_verify_checksum_maps_one_to_true (body : Json)
    (v : VerifyChecksum)
    (h : decodeVec decodeVerifyChecksum body = some [v]) :
    verify_checksum_classify body = .ok (v.valid == "1") ∧
    (verify_checksum_classify body = .ok true ↔ v.valid = "1") ∧
    (verify_checksum_classify body = .ok false ↔ v.valid ≠ "1") := by
  unfold verify_checksum_classify verify_checksum_classify_traced
  rw [h]
  refine ⟨rfl, ?_, ?_⟩ <;>
    simp [beq_iff_eq, beq_eq_false_iff_ne]

/-- Witness for C6: a concrete one-element verify-checksum body with
valid = "1" classifies to Ok(true). -/
theorem C6_witness :
    verify_checksum_classify
        (Json.arr [Json.obj
          [("ean", Json.str "5099750442227"), ("valid", Json.str "1")]]) =
      .ok true :=
  (C6_verify_checksum_maps_one_to_true _ ⟨5099750442227, "1"⟩
    (by decide)).2.1.mpr rfl

/-- Helper: the isbn_lookup classification code is a verbatim duplicate
of the barcode_lookup classification code, so the two classifiers agree. -/
theorem isbn_classify_eq_barcode (body : Json) :
    isbn_lookup_classify body = barcode_lookup_classify body := rfl

/-- C1: the lookup operations return the explicit absent result Ok(None)
exactly when the body fails to parse as the success shape but parses as a
JSON array of error objects whose first error text is the literal
sentinel "Barcode not found"; for any other first error text they return
Err carrying that exact text; and when neither shape parses they return
Err("Undefined API error"). -/
theorem C1_lookup_error_classification (body : Json) :
    ((barcode_lookup_classify body = .ok none ∧
      isbn_lookup_classify body = .ok none) ↔
      (decodeOptVecExtProduct body = none ∧
       ∃ e es, decodeVec decodeAPIError body = some (e :: es) ∧
         e.error = "Barcode not found")) ∧
    (∀ e es, decodeOptVecExtProduct body = none →
      decodeVec decodeAPIError body = some (e :: es) →
      e.error ≠ "Barcode not found" →
      barcode_lookup_classify body = .err e.error ∧
      isbn_lookup_classify body = .err e.error) ∧
    (decodeOptVecExtProduct body = none →
      decodeVec decodeAPIError body = none →
      barcode_lookup_classify body = .err "Undefined API error" ∧
      isbn_lookup_classify body = .err "Undefined API error") := by
  simp only [isbn_classify_eq_barcode, and_self]
  unfold barcode_lookup_classify barcode_lookup_classify_traced
  rcases hd : decodeOptVecExtProduct body with _ | _ | l
  · rcases he : decodeVec decodeAPIError body with _ | _ | ⟨e, es⟩
    · simp [he]
    · simp [he]
    · by_cases hs : e.error = "Barcode not found" <;> simp [he, hs]
  · simp
  · cases l <;> simp

/-- Witness for C1: concrete bodies exercising the three branches — the
sentinel error array yields Ok(None), another error text is carried in
Err, and a body matching neither shape yields the undefined-error text. -/
theorem C1_witness :
    barcode_lookup_classify
        (Json.arr [Json.obj [("error", Json.str "Barcode not found")]]) =
      .ok none ∧
    isbn_lookup_classify
        (Json.arr [Json.obj [("error", Json.str "Barcode not found")]]) =
      .ok none ∧
    barcode_lookup_classify
        (Json.arr [Json.obj [("error", Json.str "Invalid token")]]) =
      .err "Invalid token" ∧
    isbn_lookup_classify
        (Json.arr [Json.obj [("error", Json.str "Invalid token")]]) =
      .err "Invalid token" ∧
    barcode_lookup_classify (Json.num 7) = .err "Undefined API error" :=
  ⟨((C1_lookup_error_classification
      (Json.arr [Json.obj [("error", Json.str "Barcode not found")]])).1.mpr
      ⟨rfl, ⟨⟨"Barcode not found"⟩, [], rfl, rfl⟩⟩).1,
   ((C1_lookup_error_classification
      (Json.arr [Json.obj [("error", Json.str "Barcode not found")]])).1.mpr
      ⟨rfl, ⟨⟨"Barcode not found"⟩, [], rfl, rfl⟩⟩).2,
   ((C1_lookup_error_classification
      (Json.arr [Json.obj [("error", Json.str "Invalid token")]])).2.1
      ⟨"Invalid token"⟩ [] rfl rfl (by decide)).1,
   ((C1_lookup_error_classification
      (Json.arr [Json.obj [("error", Json.str "Invalid token")]])).2.1
      ⟨"Invalid token"⟩ [] rfl rfl (by decide)).2,
   ((C1_lookup_error_classification (Json.num 7)).2.2 rfl rfl).1⟩

/-- Counterexample for C2: on the body `{"productlist": []}` — whose
success shape parses (the productlist field decodes as `Vec<Product>`) —
the list dispatcher's classification does NOT attempt the success-shape
parse first: its first parse attempt is the error-object shape
(lib.rs line 192 parses `Vec<APIError>` before anything else). -/
theorem C2_counterexample :
    (api_call_list_classify_traced
        (Json.obj [("productlist", Json.arr [])])).2.head? ≠
      some ParseShape.success ∧
    decodeVec decodeProduct
        (jsonIndex (Json.obj [("productlist", Json.arr [])]) "productlist") =
      some [] :=
  ⟨by decide, rfl⟩

/-- C2 amended: the single-record and scalar operations (barcode_lookup,
isbn_lookup, issuing_country, verify_checksum, barcode_image) attempt the
success-shape parse first and the error-object-shape parse only after the
success-shape parse fails; the list dispatcher api_call_list however
attempts the error-object-shape parse first, unconditionally, and the
productlist success parse only after the error-shape parse fails. -/
theorem C2_parse_order (body : Json) :
    ((barcode_lookup_classify_traced body).2.head? = some ParseShape.success ∧
     (ParseShape.errorList ∈ (barcode_lookup_classify_traced body).2 →
       decodeOptVecExtProduct body = none)) ∧
    ((isbn_lookup_classify_traced body).2.head? = some ParseShape.success ∧
     (ParseShape.errorList ∈ (isbn_lookup_classify_traced body).2 →
       decodeOptVecExtProduct body = none)) ∧
    ((issuing_country_classify_traced body).2.head? = some ParseShape.success ∧
     (ParseShape.errorList ∈ (issuing_country_classify_traced body).2 →
       decodeVec decodeProductCountry body = none)) ∧
    ((verify_checksum_classify_traced body).2.head? = some ParseShape.success ∧
     (ParseShape.errorList ∈ (verify_checksum_classify_traced body).2 →
       decodeVec decodeVerifyChecksum body = none)) ∧
    ((barcode_image_classify_traced body).2.head? = some ParseShape.success ∧
     (ParseShape.errorList ∈ (barcode_image_classify_traced body).2 →
       decodeVec decodeBarcodeImage body = none)) ∧
    ((api_call_list_classify_traced body).2.head? = some ParseShape.errorList ∧
     (ParseShape.success ∈ (api_call_list_classify_traced body).2 →
       decodeVec decodeAPIError body = none)) := by
  refine ⟨⟨?_, ?_⟩, ⟨?_, ?_⟩, ⟨?_, ?_⟩, ⟨?_, ?_⟩, ⟨?_, ?_⟩, ⟨?_, ?_⟩⟩ <;>
  · first
    | (unfold barcode_lookup_classify_traced; split <;> simp_all)
    | (unfold isbn_lookup_classify_traced; split <;> simp_all)
    | (unfold issuing_country_classify_traced; split <;> simp_all)
    | (unfold verify_checksum_classify_traced; split <;> simp_all)
    | (unfold barcode_image_classify_traced; split <;> simp_all)
    | (unfold api_call_list_classify_traced;
        split <;> (try split) <;> simp_all)

/-- Witness for C2: at a body matching neither shape, every operation's
first parse attempt is as stated and each second-attempt hypothesis is
discharged concretely. -/
theorem C2_witness :
    (barcode_lookup_classify_traced Json.invalid).2.head? =
      some ParseShape.success ∧
    decodeOptVecExtProduct Json.invalid = none ∧
    (api_call_list_classify_traced (Json.num 7)).2.head? =
      some ParseShape.errorList ∧
    decodeVec decodeAPIError (Json.num 7) = none ∧
    decodeVec decodeVerifyChecksum Json.invalid = none :=
  ⟨(C2_parse_order Json.invalid).1.1,
   (C2_parse_order Json.invalid).1.2 (by decide),
   (C2_parse_order (Json.num 7)).2.2.2.2.2.1,
   (C2_parse_order (Json.num 7)).2.2.2.2.2.2 (by decide),
   (C2_parse_order Json.invalid).2.2.2.1.2 (by decide)⟩

/-- Helper: `List.mapM.loop` with a non-empty accumulator never returns
the empty list. -/
theorem mapM_loop_ne_nil {α : Type} (dec : Json → Option α) :
    ∀ (ys : List Json) (b : α) (acc : List α),
      List.mapM.loop dec ys (b :: acc) ≠ some [] := by
  intro ys
  induction ys with
  | nil => intro b acc; simp [List.mapM.loop]
  | cons y ys ih =>
    intro b acc
    cases hy : dec y <;> simp [List.mapM.loop, hy]
    exact ih _ _

/-- Helper: the only JSON body that decodes to an empty `Vec<T>` is the
empty array. -/
theorem decodeVec_nil_arr {α : Type} (dec : Json → Option α) (body : Json)
    (h : decodeVec dec body = some []) : body = .arr [] := by
  cases body <;> simp [decodeVec] at h
  case arr xs =>
    cases xs with
    | nil => rfl
    | cons y ys =>
      cases hy : dec y <;> simp [List.mapM.loop, hy] at h
      exact absurd h (mapM_loop_ne_nil dec ys _ _)

/-- Counterexample for C4: remote-side errors that panic instead of being
surfaced as an Err value — a transport failure (a `send()` error) makes
`barcode_lookup`, `barcode_image` and `product_search` panic
(`send().unwrap()` at lib.rs lines 171 and 181), and the list
dispatcher's classification panics on the empty-JSON-array body `[]`
(`api_error.unwrap()[0]` at lib.rs line 194), refuting the claim that no
operation panics on a remote-side error including transport failures. -/
theorem C4_counterexample :
    (barcode_lookup (EANSearch.new "token") 1 none
        (Except.error "connection refused")).2 = Ret.panic ∧
    (barcode_image (EANSearch.new "token") 1 none none
        (Except.error "connection refused")).2 = Ret.panic ∧
    (product_search (EANSearch.new "token") "x" none none
        (fun _ => Except.error "connection refused")).2.result = Ret.panic ∧
    api_call_list_classify (Json.arr []) = Ret.panic := by
  refine ⟨rfl, rfl, ?_, rfl⟩
  simp [product_search, api_call_list]

/-- C4 amended: every public operation surfaces application-level errors
reported by the remote service as an Err value carrying the service's
exact error text (the lookups excepted on the not-found sentinel), and a
body in which neither shape is recognized as an Err with a descriptive
message; the single-record and scalar operations never panic when the
success-shape parse of the body fails, and the list dispatcher never
panics except on the empty-JSON-array body.  The no-panic part of the
original claim is false for transport failures: every operation that
issues a request panics on a transport error instead of surfacing it,
credits_remaining doing so exactly when its cache forces the dummy
query. -/
theorem C4_error_propagation (st : EANSearch) (ean pfx : Nat)
    (name : String) (category : Int) (optName : Option String)
    (language page width height : Option Int) (m : String) (body : Json) :
    ((barcode_lookup st ean language (Except.error m)).2 = .panic ∧
     (isbn_lookup st ean (Except.error m)).2 = .panic ∧
     (issuing_country st ean (Except.error m)).2 = .panic ∧
     (verify_checksum st ean (Except.error m)).2 = .panic ∧
     (barcode_image st ean width height (Except.error m)).2 = .panic ∧
     (barcode_prefix_search st pfx language page
        (fun _ => Except.error m)).2.result = .panic ∧
     (product_search st name language page
        (fun _ => Except.error m)).2.result = .panic ∧
     (similar_product_search st name language page
        (fun _ => Except.error m)).2.result = .panic ∧
     (category_search st category optName language page
        (fun _ => Except.error m)).2.result = .panic ∧
     (st.remaining < 0 →
       (credits_remaining st (Except.error m)).1 = .panic)) ∧
    (∀ e es, decodeVec decodeAPIError body = some (e :: es) →
      ((decodeOptVecExtProduct body = none →
        e.error ≠ "Barcode not found" →
        barcode_lookup_classify body = .err e.error ∧
        isbn_lookup_classify body = .err e.error) ∧
       (decodeVec decodeProductCountry body = none →
        issuing_country_classify body = .err e.error) ∧
       (decodeVec decodeVerifyChecksum body = none →
        verify_checksum_classify body = .err e.error) ∧
       (decodeVec decodeBarcodeImage body = none →
        barcode_image_classify body = .err e.error) ∧
       api_call_list_classify body = .err e.error)) ∧
    (decodeVec decodeAPIError body = none →
      ((decodeOptVecExtProduct body = none →
        barcode_lookup_classify body = .err "Undefined API error" ∧
        isbn_lookup_classify body = .err "Undefined API error") ∧
       (decodeVec decodeProductCountry body = none →
        issuing_country_classify body = .err "Undefined API error") ∧
       (decodeVec decodeVerifyChecksum body = none →
        verify_checksum_classify body = .err "Undefined API error") ∧
       (decodeVec decodeBarcodeImage body = none →
        barcode_image_classify body = .err "Undefined API error") ∧
       (decodeVec decodeProduct (jsonIndex body "productlist") = none →
        api_call_list_classify body = .err jsonParseErrorMsg))) ∧
    ((decodeOptVecExtProduct body = none →
       barcode_lookup_classify body ≠ .panic ∧
       isbn_lookup_classify body ≠ .panic) ∧
     (decodeVec decodeProductCountry body = none →
       issuing_country_classify body ≠ .panic) ∧
     (decodeVec decodeVerifyChecksum body = none →
       verify_checksum_classify body ≠ .panic) ∧
     (decodeVec decodeBarcodeImage body = none →
       barcode_image_classify body ≠ .panic) ∧
     (body ≠ Json.arr [] → api_call_list_classify body ≠ .panic)) := by
  refine ⟨⟨rfl, rfl, rfl, rfl, rfl, ?_, ?_, ?_, ?_, ?_⟩, ?_, ?_,
    ⟨?_, ?_, ?_, ?_, ?_⟩⟩
  · simp [barcode_prefix_search, api_call_list]
  · simp [product_search, api_call_list]
  · simp [similar_product_search, api_call_list]
  · simp [category_search, api_call_list]
  · intro h
    simp [credits_remaining, api_call, h]
  · intro e es he
    refine ⟨?_, ?_, ?_, ?_, ?_⟩
    · intro hd hs
      have hbb : barcode_lookup_classify body = .err e.error := by
        unfold barcode_lookup_classify barcode_lookup_classify_traced
        simp [hd, he, hs]
      exact ⟨hbb, (isbn_classify_eq_barcode body).trans hbb⟩
    · intro hd
      unfold issuing_country_classify issuing_country_classify_traced
      simp [hd, he]
    · intro hd
      unfold verify_checksum_classify verify_checksum_classify_traced
      simp [hd, he]
    · intro hd
      unfold barcode_image_classify barcode_image_classify_traced
      simp [hd, he]
    · unfold api_call_list_classify api_call_list_classify_traced
      simp [he]
  · intro he
    refine ⟨?_, ?_, ?_, ?_, ?_⟩
    · intro hd
      have hbb : barcode_lookup_classify body = .err "Undefined API error" := by
        unfold barcode_lookup_classify barcode_lookup_classify_traced
        simp [hd, he]
      exact ⟨hbb, (isbn_classify_eq_barcode body).trans hbb⟩
    · intro hd
      unfold issuing_country_classify issuing_country_classify_traced
      simp [hd, he]
    · intro hd
      unfold verify_checksum_classify verify_checksum_classify_traced
      simp [hd, he]
    · intro hd
      unfold barcode_image_classify barcode_image_classify_traced
      simp [hd, he]
    · intro hp
      unfold api_call_list_classify api_call_list_classify_traced
      cases body <;> simp [he, hp] at hp ⊢
  · intro h
    have hbb : barcode_lookup_classify body ≠ .panic := by
      unfold barcode_lookup_classify barcode_lookup_classify_traced
      rcases he : decodeVec decodeAPIError body with _ | _ | ⟨e, es⟩
      · simp [h, he]
      · have hb := decodeVec_nil_arr decodeAPIError body he
        rw [hb] at h
        simp [decodeOptVecExtProduct, decodeVec, List.mapM.loop] at h
      · by_cases hs : e.error = "Barcode not found" <;> simp [h, he, hs]
    exact ⟨hbb,
      fun hh => hbb ((isbn_classify_eq_barcode body).symm.trans hh)⟩
  · intro h
    unfold issuing_country_classify issuing_country_classify_traced
    rcases he : decodeVec decodeAPIError body with _ | _ | ⟨e, es⟩
    · simp [h, he]
    · have hb := decodeVec_nil_arr decodeAPIError body he
      rw [hb] at h
      simp [decodeVec, List.mapM.loop] at h
    · simp [h, he]
  · intro h
    unfold verify_checksum_classify verify_checksum_classify_traced
    rcases he : decodeVec decodeAPIError body with _ | _ | ⟨e, es⟩
    · simp [h, he]
    · have hb := decodeVec_nil_arr decodeAPIError body he
      rw [hb] at h
      simp [decodeVec, List.mapM.loop] at h
    · simp [h, he]
  · intro h
    unfold barcode_image_classify barcode_image_classify_traced
    rcases he : decodeVec decodeAPIError body with _ | _ | ⟨e, es⟩
    · simp [h, he]
    · have hb := decodeVec_nil_arr decodeAPIError body he
      rw [hb] at h
      simp [decodeVec, List.mapM.loop] at h
    · simp [h, he]
  · intro hb
    unfold api_call_list_classify api_call_list_classify_traced
    rcases he : decodeVec decodeAPIError body with _ | _ | ⟨e, es⟩
    · cases body <;> simp [he] <;> split <;> simp
    · exact absurd (decodeVec_nil_arr _ _ he) hb
    · simp [he]

/-- Witness for C4: a forced dummy query panics on a transport failure;
a concrete error-array body is surfaced with its exact text by both the
list dispatcher and a scalar operation; an unrecognized body is surfaced
as the undefined-error text; and a recognized-but-error-free body does
not make the list dispatcher panic. -/
theorem C4_witness :
    (credits_remaining (EANSearch.new "t") (Except.error "down")).1 =
      .panic ∧
    api_call_list_classify
        (Json.arr [Json.obj [("error", Json.str "Invalid token")]]) =
      .err "Invalid token" ∧
    verify_checksum_classify
        (Json.arr [Json.obj [("error", Json.str "Invalid token")]]) =
      .err "Invalid token" ∧
    barcode_lookup_classify Json.invalid = .err "Undefined API error" ∧
    api_call_list_classify (Json.num 7) ≠ .panic := by
  have h1 := (C4_error_propagation (EANSearch.new "t") 1 1 "n" 1 none
    none none none none "down"
    (Json.arr [Json.obj [("error", Json.str "Invalid token")]]))
  have h2 := (C4_error_propagation (EANSearch.new "t") 1 1 "n" 1 none
    none none none none "down" Json.invalid)
  have h3 := (C4_error_propagation (EANSearch.new "t") 1 1 "n" 1 none
    none none none none "down" (Json.num 7))
  refine ⟨h1.1.2.2.2.2.2.2.2.2.2 (by decide), ?_, ?_, ?_, ?_⟩
  · exact (h1.2.1 ⟨"Invalid token"⟩ [] rfl).2.2.2.2
  · exact (h1.2.1 ⟨"Invalid token"⟩ [] rfl).2.2.1 rfl
  · exact ((h2.2.2.1 rfl).1 rfl).1
  · exact h3.2.2.2.2.2.2.2 (fun hh => nomatch hh)

/-- C3 (code bug exhibit): under persistent HTTP 429 the dispatcher,
started at tries = 1, retries while tries <= MAX_API_TRIES = 3, so it
issues exactly 4 requests, terminates, and surfaces the classification of
the final response; and a 429 run that turns into a success within the
retry budget yields the success list.  Each recorded sleep is the
argument pair of `Duration::new(0, 1)` (lib.rs line 188): ZERO seconds
and ONE nanosecond, although the adjacent comment says "wait 1 sec" and
the specification requires a pause on the order of one second. -/
theorem C3_retry_bounded_and_sleeps :
    (api_call_list (EANSearch.new "t")
        (fun _ => Except.ok
          { status := 429, creditsHeader := none,
            body := Except.ok
              (Json.arr
                [Json.obj [("error", Json.str "Rate limit exceeded")]]) })
        0 1 =
      { st := EANSearch.new "t",
        result := .err "Rate limit exceeded",
        requests := 4,
        sleeps := [(0, 1), (0, 1), (0, 1)] }) ∧
    (api_call_list (EANSearch.new "t")
        (fun i => if i < 2 then
          Except.ok
            { status := 429, creditsHeader := none,
              body := Except.ok
                (Json.arr
                  [Json.obj [("error", Json.str "Rate limit exceeded")]]) }
          else
          Except.ok
            { status := 200, creditsHeader := some "42",
              body := Except.ok (Json.obj [("productlist",
                Json.arr [Json.obj
                  [("ean", Json.str "1"), ("name", Json.str "x"),
                   ("categoryId", Json.str "2"),
                   ("categoryName", Json.str "y"),
                   ("issuingCountry", Json.str "z")]])]) })
        0 1 =
      { st := { client := { userAgent := "rust-eansearch/1.0" },
                base_url :=
                  "https://api.ean-search.org/api?format=json&token=t",
                remaining := 42 },
        result := .ok [{ ean := 1, name := "x", category_id := 2,
                         category_name := "y", issuing_country := "z" }],
        requests := 3,
        sleeps := [(0, 1), (0, 1)] }) := by
  constructor
  · simp [api_call_list, updateRemaining, MAX_API_TRIES, EANSearch.new,
      api_call_list_classify, api_call_list_classify_traced, decodeVec,
      decodeAPIError, getField, asString, List.mapM.loop, List.lookup]
  · simp [api_call_list, updateRemaining, MAX_API_TRIES, EANSearch.new,
      api_call_list_classify, api_call_list_classify_traced, decodeVec,
      decodeAPIError, decodeProduct, getField, asString, List.mapM.loop,
      List.lookup, jsonIndex, parseU64, parseI32, parseI64, parseNatDigits,
      digitVal, String.toList]

/-- Helper: what a successful credits-header update says about the
resulting state. -/
theorem updateRemaining_spec (st st1 : EANSearch) (h : Option String)
    (hu : updateRemaining st h = some st1) :
    (h = none ∧ st1.remaining = -1) ∨
    (∃ s n, h = some s ∧ parseI64 s = some n ∧ st1.remaining = n) := by
  cases h with
  | none =>
    simp [updateRemaining] at hu
    exact Or.inl ⟨rfl, by rw [← hu]⟩
  | some s =>
    simp [updateRemaining, Option.map_eq_some'] at hu
    obtain ⟨n, hn, hst⟩ := hu
    exact Or.inr ⟨s, n, rfl, hn, by rw [← hst]⟩

/-- C9: after a request through api_call, the cached remaining field
equals the decimal integer value of the x-credits-remaining header when
the header is present (and parseable), and is reset to -1 when the header
is absent, whatever was cached before; and after a non-panicking
api_call_list run, the final cached remaining field is determined in the
same way by the header of the last response processed. -/
theorem C9_remaining_tracks_header :
    (∀ (st : EANSearch) (resp : HttpResponse), resp.creditsHeader = none →
      (api_call st (.ok resp)).st.remaining = -1) ∧
    (∀ (st : EANSearch) (resp : HttpResponse) (s : String) (n : Int),
      resp.creditsHeader = some s → parseI64 s = some n →
      (api_call st (.ok resp)).st.remaining = n) ∧
    (∀ (st : EANSearch) (net : Nat → Except String HttpResponse)
       (idx : Nat) (tries : Int) (resp : HttpResponse),
      (api_call_list st net idx tries).result ≠ .panic →
      net (idx + (api_call_list st net idx tries).requests - 1) = .ok resp →
      ((resp.creditsHeader = none ∧
        (api_call_list st net idx tries).st.remaining = -1) ∨
       (∃ s n, resp.creditsHeader = some s ∧ parseI64 s = some n ∧
         (api_call_list st net idx tries).st.remaining = n))) := by
  refine ⟨?_, ?_, ?_⟩
  · intro st resp h
    cases hb : resp.body <;> simp [api_call, updateRemaining, h, hb]
  · intro st resp s n hs hn
    cases hb : resp.body <;> simp [api_call, updateRemaining, hs, hn, hb]
  · intro st net idx tries
    induction st, net, idx, tries using api_call_list.induct with
    | case1 st net idx tries e hne =>
      intro resp hnp hnet
      simp [api_call_list, hne] at hnp
    | case2 st net idx tries resp0 hne hupd =>
      intro resp hnp hnet
      simp [api_call_list, hne, hupd] at hnp
    | case3 st net idx tries resp0 hne st1 hupd hcond ih =>
      intro resp hnp hnet
      rw [api_call_list.eq_def] at hnp hnet ⊢
      simp only [hne, hupd, hcond, and_self, if_true] at hnp hnet ⊢
      have harith :
          idx + ((api_call_list st1 net (idx + 1) (tries + 1)).requests + 1)
              - 1 =
          idx + 1 + (api_call_list st1 net (idx + 1) (tries + 1)).requests
              - 1 := by
        omega
      rw [harith] at hnet
      exact ih resp hnp hnet
    | case4 st net idx tries resp0 hne st1 hupd hcond e hbody =>
      intro resp hnp hnet
      rw [api_call_list.eq_def] at hnet ⊢
      simp only [hne, hupd, hcond, if_false, hbody] at hnet ⊢
      simp only [Nat.add_sub_cancel] at hnet
      rw [hne] at hnet
      simp only [Except.ok.injEq] at hnet
      subst hnet
      exact updateRemaining_spec st st1 _ hupd
    | case5 st net idx tries resp0 hne st1 hupd hcond b hbody =>
      intro resp hnp hnet
      rw [api_call_list.eq_def] at hnet ⊢
      simp only [hne, hupd, hcond, if_false, hbody] at hnet ⊢
      simp only [Nat.add_sub_cancel] at hnet
      rw [hne] at hnet
      simp only [Except.ok.injEq] at hnet
      subst hnet
      exact updateRemaining_spec st st1 _ hupd

/-- Witness for C9: a response without the header resets the cache to -1
even from a cached balance of 7; a response with header "17" sets it to
17; and a single-response api_call_list run with header "9" ends with 9. -/
theorem C9_witness :
    (api_call
        { client := { userAgent := "rust-eansearch/1.0" },
          base_url := "u", remaining := 7 }
        (.ok { status := 200, creditsHeader := none,
               body := Except.ok Json.null })).st.remaining = -1 ∧
    (api_call (EANSearch.new "t")
        (.ok { status := 200, creditsHeader := some "17",
               body := Except.ok Json.null })).st.remaining = 17 ∧
    (({ status := 200, creditsHeader := some "9",
        body := Except.ok Json.invalid } : HttpResponse).creditsHeader =
          none ∧
      (api_call_list (EANSearch.new "t")
        (fun _ => .ok { status := 200, creditsHeader := some "9",
                        body := Except.ok Json.invalid })
        0 1).st.remaining = -1 ∨
     ∃ s n, ({ status := 200, creditsHeader := some "9",
               body := Except.ok Json.invalid } : HttpResponse).creditsHeader
          = some s ∧
       parseI64 s = some n ∧
       (api_call_list (EANSearch.new "t")
        (fun _ => .ok { status := 200, creditsHeader := some "9",
                        body := Except.ok Json.invalid })
        0 1).st.remaining = n) :=
  ⟨C9_remaining_tracks_header.1 _ _ rfl,
   C9_remaining_tracks_header.2.1 _ _ "17" 17 rfl (by decide),
   C9_remaining_tracks_header.2.2 _ _ 0 1 _
     (by
       simp [api_call_list, updateRemaining, parseI64, parseNatDigits,
         digitVal, String.toList, MAX_API_TRIES, api_call_list_classify,
         api_call_list_classify_traced, decodeVec, decodeAPIError,
         EANSearch.new])
     rfl⟩
